import Mathlib

/-!
Verification development for the Tier0 feeder component and the
GetAvailableRepackMergeFiles subscription query.

Part 1 embeds the SQL query of
`src/python/T0/WMBS/Oracle/Subscriptions/GetAvailableRepackMergeFiles.py`
as relational algebra over explicit table rows: the inner joins build the
tuple space, the WHERE clause (including the LEFT OUTER JOIN + IS NULL
anti-join against `lumi_section_split_active`) is a row predicate, and the
GROUP BY with MIN/MAX lumi is an explicit grouping step.

Part 2 embeds the pure decision logic of
`src/python/T0Component/Tier0Feeder/Tier0FeederPoller.py`: the per-cycle
phase sequencing of `algorithm`, the couch-monitoring mark conditions, the
chunked StorageManager notification, the five Tier0-Data-Service sync
sub-phases, and the new-run configuration loop.
-/

/-! ### Table row types of the repack-merge availability query -/

structure SubFileAvail where
  subscription : Nat
  fileid : Nat
deriving DecidableEq

structure RunLumiRow where
  fileid : Nat
  run : Nat
  lumi : Nat
deriving DecidableEq

structure FileDetailsRow where
  id : Nat
  filesize : Nat
  events : Nat
  lfn : String
deriving DecidableEq

structure FileLocationRow where
  fileid : Nat
  location : Nat
deriving DecidableEq

structure LocationRow where
  id : Nat
  se_name : String
deriving DecidableEq

structure SubscriptionRow where
  id : Nat
  fileset : Nat
  workflow : Nat
deriving DecidableEq

structure WorkflowOutputRow where
  workflow_id : Nat
  output_fileset : Nat
deriving DecidableEq

structure RunStreamFilesetAssocRow where
  run_id : Nat
  fileset : Nat
  stream_id : Nat
deriving DecidableEq

structure LumiSectionSplitActiveRow where
  run_id : Nat
  lumi_id : Nat
  stream_id : Nat
deriving DecidableEq

structure T0DB where
  wmbs_sub_files_available : List SubFileAvail
  wmbs_file_runlumi_map : List RunLumiRow
  wmbs_file_details : List FileDetailsRow
  wmbs_file_location : List FileLocationRow
  wmbs_location : List LocationRow
  wmbs_subscription : List SubscriptionRow
  wmbs_workflow_output : List WorkflowOutputRow
  run_stream_fileset_assoc : List RunStreamFilesetAssocRow
  lumi_section_split_active : List LumiSectionSplitActiveRow

/-- One tuple of the join space before the WHERE clause is applied. -/
structure JoinTuple where
  fa : SubFileAvail
  rl : RunLumiRow
  fd : FileDetailsRow
  fl : FileLocationRow
  loc : LocationRow
  sub : SubscriptionRow
  wo : WorkflowOutputRow
  assoc : RunStreamFilesetAssocRow
deriving DecidableEq

/-- The raw product of the joined tables. -/
def joinTuples (db : T0DB) : List JoinTuple :=
  db.wmbs_sub_files_available.flatMap fun fa =>
  db.wmbs_file_runlumi_map.flatMap fun rl =>
  db.wmbs_file_details.flatMap fun fd =>
  db.wmbs_file_location.flatMap fun fl =>
  db.wmbs_location.flatMap fun loc =>
  db.wmbs_subscription.flatMap fun sub =>
  db.wmbs_workflow_output.flatMap fun wo =>
  db.run_stream_fileset_assoc.map fun assoc =>
  ⟨fa, rl, fd, fl, loc, sub, wo, assoc⟩

/-- The correlated scalar subquery
`SELECT fileset FROM wmbs_subscription WHERE workflow = wmbs_workflow_output.workflow_id`,
read as the set of filesets subscribed by the given workflow. -/
def subqueryFilesets (db : T0DB) (workflowId : Nat) : List Nat :=
  (db.wmbs_subscription.filter fun s => s.workflow == workflowId).map fun s => s.fileset

/-- The LEFT OUTER JOIN match condition against `lumi_section_split_active`. -/
def lockMatches (db : T0DB) (run lumi streamId : Nat) : Bool :=
  db.lumi_section_split_active.any fun ls =>
    ls.run_id == run && ls.lumi_id == lumi && ls.stream_id == streamId

/-- All join conditions plus the WHERE clause of the query: the INNER JOIN
equalities, the subscription bind, and the IS NULL anti-join that drops any
(file, lumi) row whose (run, lumi, stream) holds an active split lock. -/
def rowOK (db : T0DB) (subId : Nat) (t : JoinTuple) : Bool :=
  t.rl.fileid == t.fa.fileid &&
  t.fd.id == t.fa.fileid &&
  t.fl.fileid == t.fa.fileid &&
  t.loc.id == t.fl.location &&
  t.sub.id == t.fa.subscription &&
  t.wo.output_fileset == t.sub.fileset &&
  t.assoc.run_id == t.rl.run &&
  (subqueryFilesets db t.wo.workflow_id).contains t.assoc.fileset &&
  t.fa.subscription == subId &&
  !(lockMatches db t.rl.run t.rl.lumi t.assoc.stream_id)

/-- A surviving row of the query before grouping: the SELECTed columns. -/
structure JoinRow where
  fileid : Nat
  filesize : Nat
  events : Nat
  lfn : String
  se_name : String
  lumi : Nat
deriving DecidableEq

def mkJoinRow (t : JoinTuple) : JoinRow :=
  ⟨t.fa.fileid, t.fd.filesize, t.fd.events, t.fd.lfn, t.loc.se_name, t.rl.lumi⟩

def joinRows (db : T0DB) (subId : Nat) : List JoinRow :=
  ((joinTuples db).filter (rowOK db subId)).map mkJoinRow

/-- The GROUP BY key of the query: fileid, filesize, events, lfn, se_name. -/
structure GroupKey where
  fileid : Nat
  filesize : Nat
  events : Nat
  lfn : String
  se_name : String
deriving DecidableEq

def keyOf (r : JoinRow) : GroupKey :=
  ⟨r.fileid, r.filesize, r.events, r.lfn, r.se_name⟩

/-- MIN over a group (0 only on the empty list, which grouping never produces). -/
def minList : List Nat → Nat
  | [] => 0
  | [x] => x
  | x :: y :: t => min x (minList (y :: t))

/-- MAX over a group. -/
def maxList : List Nat → Nat
  | [] => 0
  | [x] => x
  | x :: y :: t => max x (maxList (y :: t))

/-- One row of the query result. -/
structure ResultRow where
  id : Nat
  filesize : Nat
  events : Nat
  lfn : String
  location : String
  first_lumi : Nat
  last_lumi : Nat
deriving DecidableEq

/-- The lumis of the group with the given GROUP BY key. -/
def groupLumis (db : T0DB) (subId : Nat) (k : GroupKey) : List Nat :=
  ((joinRows db subId).filter fun r => keyOf r == k).map fun r => r.lumi

/-- `GetAvailableRepackMergeFiles.execute`: join, filter, group, aggregate. -/
def execute (db : T0DB) (subId : Nat) : List ResultRow :=
  (((joinRows db subId).map keyOf).dedup).map fun k =>
    ⟨k.fileid, k.filesize, k.events, k.lfn, k.se_name,
     minList (groupLumis db subId k), maxList (groupLumis db subId k)⟩

/-- Per-file characterization of the lumis that survive the query's filter
for a given subscription: lumi associations of the file whose run is
associated (for the producing workflow's input fileset) with a stream that
holds no active split lock on that (run, lumi). -/
def survivingLumis (db : T0DB) (subId fid : Nat) : List Nat :=
  db.wmbs_file_runlumi_map.flatMap fun rl =>
  db.wmbs_subscription.flatMap fun sub =>
  db.wmbs_workflow_output.flatMap fun wo =>
  db.run_stream_fileset_assoc.flatMap fun assoc =>
    if rl.fileid == fid && sub.id == subId && wo.output_fileset == sub.fileset &&
       assoc.run_id == rl.run &&
       (subqueryFilesets db wo.workflow_id).contains assoc.fileset &&
       !(lockMatches db rl.run rl.lumi assoc.stream_id)
    then [rl.lumi] else []

/-! ### Concrete databases used as counterexamples and witnesses -/

/-- A database where file 10 (available for subscription 1) has lumi
associations (200,10) and (200,11), and an active split lock exists for
(200,11) on stream 77, the stream owning the subscription's fileset chain. -/
def c1db : T0DB :=
  { wmbs_sub_files_available := [⟨1, 10⟩]
    wmbs_file_runlumi_map := [⟨10, 200, 10⟩, ⟨10, 200, 11⟩]
    wmbs_file_details := [⟨10, 1000, 50, "lfnA"⟩]
    wmbs_file_location := [⟨10, 1⟩]
    wmbs_location := [⟨1, "se1"⟩]
    wmbs_subscription := [⟨1, 100, 7⟩, ⟨2, 50, 5⟩]
    wmbs_workflow_output := [⟨5, 100⟩]
    run_stream_fileset_assoc := [⟨200, 50, 77⟩]
    lumi_section_split_active := [⟨200, 11, 77⟩] }

def c1row : ResultRow := ⟨10, 1000, 50, "lfnA", "se1", 10, 10⟩

/-- A database where file 20 has lumi associations (300,7), (300,8), (300,9)
and an active split lock exists for (300,9) on the owning stream 77. -/
def c2db : T0DB :=
  { wmbs_sub_files_available := [⟨1, 20⟩]
    wmbs_file_runlumi_map := [⟨20, 300, 7⟩, ⟨20, 300, 8⟩, ⟨20, 300, 9⟩]
    wmbs_file_details := [⟨20, 2000, 60, "lfnB"⟩]
    wmbs_file_location := [⟨20, 1⟩]
    wmbs_location := [⟨1, "se1"⟩]
    wmbs_subscription := [⟨1, 100, 7⟩, ⟨2, 50, 5⟩]
    wmbs_workflow_output := [⟨5, 100⟩]
    run_stream_fileset_assoc := [⟨300, 50, 77⟩]
    lumi_section_split_active := [⟨300, 9, 77⟩] }

/-! ### Tier0FeederPoller: couch monitoring mark conditions -/

/-- Truthiness of a Python string: non-empty strings are truthy. -/
def pyStringTruthy (s : String) : Bool := !(s == "")

/-- The Python expression `int(p)` on a boolean condition. -/
def pyInt (p : Prop) [Decidable p] : Nat := if p then 1 else 0

/-- The Python condition `response == "OK" or "EXISTS"` exactly as Python
evaluates it: `or` combines the truthiness of its operands, and the right
operand is the string literal "EXISTS". -/
def monitoringMarkCondition (response : String) : Bool :=
  (response == "OK") || pyStringTruthy "EXISTS"

structure MonitoringWorkflow where
  workflowId : Nat
  run : Nat
  workflowName : String
deriving DecidableEq

/-- `feedCouchMonitoring`: for each workflow a document is inserted into the
monitoring store and, under `monitoringMarkCondition` on the insert response,
the workflow id is marked tracked. Returns the marked ids. -/
def feedCouchMonitoring (workflows : List MonitoringWorkflow)
    (insertResponse : MonitoringWorkflow → String) : List Nat :=
  workflows.flatMap fun w =>
    if monitoringMarkCondition (insertResponse w) then [w.workflowId] else []

/-- `updateClosedState`: marks the workflow closed-out under
`monitoringMarkCondition` on the status-update response. -/
def updateClosedState (updateStatusResponse : String) (workflowId : Nat) : List Nat :=
  if monitoringMarkCondition updateStatusResponse then [workflowId] else []

/-! ### Tier0FeederPoller: StorageManager notification -/

structure Streamer where
  id : Nat
  lfn : String
deriving DecidableEq

/-- `os.path.basename` on slash-separated paths. -/
def basename (s : String) : String := (s.splitOn "/").getLastD s

/-- Python `range(0, stop, step)` for a positive step. -/
def pyRangeStep (stop step : Nat) : List Nat :=
  (List.range ((stop + step - 1) / step)).map fun j => j * step

/-- The chunking comprehension of `notifyStorageManager`:
`[all[i:i+chunkSize] for i in range(0, len(all), chunkSize)]` with
`chunkSize = 50`. -/
def notifyChunks (allFinishedStreamers : List Streamer) : List (List Streamer) :=
  (pyRangeStep allFinishedStreamers.length 50).map fun i =>
    (allFinishedStreamers.drop i).take 50

structure NotifyTrace where
  invocations : List (List String)
  marked : List Nat
deriving DecidableEq

/-- `notifyStorageManager`: one notifier invocation per chunk, carrying the
chunk's file basenames; after each invocation every streamer of the chunk is
marked finished whether or not the notifier reported an error (an error is
only logged). -/
def notifyStorageManager (allFinishedStreamers : List Streamer)
    (notifierReportsError : List String → Bool) : NotifyTrace :=
  let chunks := notifyChunks allFinishedStreamers
  { invocations := chunks.map fun c => c.map fun st => basename st.lfn
    marked := (chunks.map fun c => c.map fun st => st.id).flatten }

/-! ### Tier0FeederPoller: Tier0 Data Service sync sub-phases -/

/-- The externally visible store operations of one sync sub-phase. -/
inductive SyncEvent (ι υ : Type) where
  | insertDownstream (binds : List ι)
  | markSynced (binds : List υ)
deriving DecidableEq

structure RunStreamDoneRow where
  run : Nat
  stream : String
deriving DecidableEq

/-- `updateRunStreamDoneT0DataSvc`: identical binds feed the downstream
insert and the primary-store update. -/
def updateRunStreamDoneT0DataSvc (runStreamDone : List RunStreamDoneRow) :
    List (SyncEvent RunStreamDoneRow RunStreamDoneRow) :=
  if runStreamDone.length > 0 then
    let binds := runStreamDone.map fun rs => (⟨rs.run, rs.stream⟩ : RunStreamDoneRow)
    [.insertDownstream binds, .markSynced binds]
  else []

structure ExpressConfigRow where
  run : Nat
  stream : String
  cmssw : String
  scram_arch : String
  reco_cmssw : String
  reco_scram_arch : String
  alca_skim : String
  dqm_seq : String
  global_tag : String
  scenario : String
deriving DecidableEq

structure ExpressUpdateBind where
  run : Nat
  stream : String
deriving DecidableEq

/-- `updateExpressConfigsT0DataSvc`: inserts full config rows downstream
(global tag truncated to 50 characters) and marks (run, stream) synced. -/
def updateExpressConfigsT0DataSvc (expressConfigs : List ExpressConfigRow) :
    List (SyncEvent ExpressConfigRow ExpressUpdateBind) :=
  if expressConfigs.length > 0 then
    let bindsInsert := expressConfigs.map fun c =>
      (⟨c.run, c.stream, c.cmssw, c.scram_arch, c.reco_cmssw, c.reco_scram_arch,
        c.alca_skim, c.dqm_seq, c.global_tag.take 50, c.scenario⟩ : ExpressConfigRow)
    let bindsUpdate := expressConfigs.map fun c => (⟨c.run, c.stream⟩ : ExpressUpdateBind)
    [.insertDownstream bindsInsert, .markSynced bindsUpdate]
  else []

structure RecoConfigRow where
  run : Nat
  primds : String
  cmssw : String
  scram_arch : String
  alca_skim : String
  physics_skim : String
  dqm_seq : String
  global_tag : String
  scenario : String
deriving DecidableEq

structure RecoUpdateBind where
  run : Nat
  primds : String
deriving DecidableEq

/-- `updateRecoConfigsT0DataSvc`: inserts full reco config rows downstream
(global tag truncated to 50 characters) and marks (run, primds) synced. -/
def updateRecoConfigsT0DataSvc (recoConfigs : List RecoConfigRow) :
    List (SyncEvent RecoConfigRow RecoUpdateBind) :=
  if recoConfigs.length > 0 then
    let bindsInsert := recoConfigs.map fun c =>
      (⟨c.run, c.primds, c.cmssw, c.scram_arch, c.alca_skim, c.physics_skim,
        c.dqm_seq, c.global_tag.take 50, c.scenario⟩ : RecoConfigRow)
    let bindsUpdate := recoConfigs.map fun c => (⟨c.run, c.primds⟩ : RecoUpdateBind)
    [.insertDownstream bindsInsert, .markSynced bindsUpdate]
  else []

structure RecoReleaseRow where
  run : Nat
  released : Nat
deriving DecidableEq

structure RecoReleaseInsertBind where
  run : Nat
  locked : Nat
deriving DecidableEq

structure RecoReleaseUpdateBind where
  run : Nat
  in_datasvc : Nat
deriving DecidableEq

/-- `updateRecoReleaseConfigsT0DataSvc`: per fetched row computes
`locked = int(released > 0)`, inserts (run, locked) downstream and updates
the primary store with `IN_DATASVC = locked + 1`. -/
def updateRecoReleaseConfigsT0DataSvc (recoReleaseConfigs : List RecoReleaseRow) :
    List (SyncEvent RecoReleaseInsertBind RecoReleaseUpdateBind) :=
  if recoReleaseConfigs.length > 0 then
    let bindsInsert := recoReleaseConfigs.map fun c =>
      (⟨c.run, pyInt (c.released > 0)⟩ : RecoReleaseInsertBind)
    let bindsUpdate := recoReleaseConfigs.map fun c =>
      (⟨c.run, pyInt (c.released > 0) + 1⟩ : RecoReleaseUpdateBind)
    [.insertDownstream bindsInsert, .markSynced bindsUpdate]
  else []

structure DatasetLockedRow where
  path : String
  id : Nat
deriving DecidableEq

structure DatasetLockedInsertBind where
  path : String
deriving DecidableEq

structure DatasetLockedUpdateBind where
  id : Nat
deriving DecidableEq

/-- `lockDatasetsT0DataSvc`: inserts dataset paths downstream and updates the
primary store keyed by the fetched row ids. -/
def lockDatasetsT0DataSvc (datasetConfigs : List DatasetLockedRow) :
    List (SyncEvent DatasetLockedInsertBind DatasetLockedUpdateBind) :=
  if datasetConfigs.length > 0 then
    [.insertDownstream (datasetConfigs.map fun c => (⟨c.path⟩ : DatasetLockedInsertBind)),
     .markSynced (datasetConfigs.map fun c => (⟨c.id⟩ : DatasetLockedUpdateBind))]
  else []

/-! ### Tier0FeederPoller: new-run configuration loop -/

structure HLTConfig where
  process : Option String
  mapping : List (String × String)
deriving DecidableEq

inductive RunConfigOutcome where
  | hltLookupFailed
  | invalidHLTConfig
  | configured
  | configureFailed
deriving DecidableEq

/-- The body of the new-run loop of `algorithm`: for a keyed run the HLT
configuration is retrieved and validated inside one try (any failure skips
the run via `continue`); `RunConfigAPI.configureRun` runs in its own try
whose failure is only logged. Local runs (no hltkey) are configured with no
HLT configuration. -/
def processRun (getHLTConfig : String → Except String HLTConfig)
    (configureRun : Nat → Option HLTConfig → Except String Unit)
    (run : Nat) (hltkey : Option String) : RunConfigOutcome :=
  match hltkey with
  | none =>
      match configureRun run none with
      | .ok _ => .configured
      | .error _ => .configureFailed
  | some key =>
      match getHLTConfig key with
      | .error _ => .hltLookupFailed
      | .ok cfg =>
          if cfg.process.isNone || cfg.mapping.length == 0 then .invalidHLTConfig
          else
            match configureRun run (some cfg) with
            | .ok _ => .configured
            | .error _ => .configureFailed

/-- The new-run configuration loop: `sorted(runHltkeys.items())` processed
in order, each run yielding its own outcome. -/
def configureNewRuns (getHLTConfig : String → Except String HLTConfig)
    (configureRun : Nat → Option HLTConfig → Except String Unit)
    (runHltkeys : List (Nat × Option String)) : List (Nat × RunConfigOutcome) :=
  (List.insertionSort (fun x y => x.1 ≤ y.1) runHltkeys).map fun p =>
    (p.1, processRun getHLTConfig configureRun p.1 p.2)

instance : IsTotal (Nat × Option String) (fun x y => x.1 ≤ y.1) :=
  ⟨fun a b => Nat.le_total a.1 b.1⟩

instance : IsTrans (Nat × Option String) (fun x y => x.1 ≤ y.1) :=
  ⟨fun _ _ _ h h' => Nat.le_trans h h'⟩

/-! ### Tier0FeederPoller: construction and per-cycle phase sequence -/

/-- The `__init__` normalization of `transferSystemBaseDir`: a configured
directory that does not exist on disk at construction time is reset to
None for the life of the component. -/
def initTransferSystemBaseDir (configuredDir : Option String)
    (dirOnDisk : String → Bool) : Option String :=
  match configuredDir with
  | none => none
  | some d => if dirOnDisk d then some d else none

inductive Phase where
  | configureRuns
  | configureRunStreams
  | stopRuns
  | closeRuns
  | releaseExpress
  | releasePromptReco
  | syncRunStreamDone
  | syncExpressConfigs
  | syncRecoConfigs
  | syncRecoReleaseConfigs
  | syncDatasetLocked
  | markWorkflowsInjected (injected : Bool)
  | closeLumiSections
  | feedStreamersAttempt
  | feedStreamersCommit
  | closeRunStreamFilesets
  | checkActiveSplitLumis
  | feedCouchMonitoringPhase
  | closeOutRealTimeWorkflows
  | notifyStorageManagerPhase
  | uploadConditions
deriving DecidableEq

structure AlgoEnv where
  tier0Config : Option Unit
  haveT0DataSvc : Bool
  transferSystemBaseDir : Option String
  feedStreamersResult : Except String Unit

structure AlgoTrace where
  executed : List Phase
  feedCommitted : Bool
  abortedCycle : Bool

/-- One cycle of `Tier0FeederPoller.algorithm` at phase granularity: the
new-run and run/stream configuration blocks run only under a loadable Tier0
configuration; the Tier0 Data Service sync block runs only when that store
is configured; the injected-mark flag and the StorageManager notification
depend on `transferSystemBaseDir`; the streamer feed runs in an explicit
transaction whose failure is logged and re-raised, aborting the cycle
before any later phase. -/
def algorithm (env : AlgoEnv) : AlgoTrace :=
  let configPhases :=
    match env.tier0Config with
    | some _ => [Phase.configureRuns, Phase.configureRunStreams]
    | none => []
  let prePhases :=
    configPhases ++
    [Phase.stopRuns, Phase.closeRuns, Phase.releaseExpress, Phase.releasePromptReco] ++
    (if env.haveT0DataSvc then
        [Phase.syncRunStreamDone, Phase.syncExpressConfigs, Phase.syncRecoConfigs,
         Phase.syncRecoReleaseConfigs, Phase.syncDatasetLocked]
      else []) ++
    [Phase.markWorkflowsInjected env.transferSystemBaseDir.isSome, Phase.closeLumiSections]
  match env.feedStreamersResult with
  | .error _ =>
      { executed := prePhases ++ [Phase.feedStreamersAttempt]
        feedCommitted := false
        abortedCycle := true }
  | .ok _ =>
      { executed :=
          prePhases ++
          [Phase.feedStreamersAttempt, Phase.feedStreamersCommit,
           Phase.closeRunStreamFilesets, Phase.checkActiveSplitLumis,
           Phase.feedCouchMonitoringPhase, Phase.closeOutRealTimeWorkflows] ++
          (if env.transferSystemBaseDir.isSome then [Phase.notifyStorageManagerPhase] else []) ++
          [Phase.uploadConditions]
        feedCommitted := true
        abortedCycle := false }

/-! ### Concrete inputs for part 2 witnesses -/

def l120 : List Streamer := (List.range 120).map fun i => ⟨i, "run/stream/f"⟩

def c9hlt : String → Except String HLTConfig := fun k =>
  if k == "good" then .ok ⟨some "HLTProc", [("path1", "dataset1")]⟩
  else .ok ⟨none, [("path1", "dataset1")]⟩

def c9conf : Nat → Option HLTConfig → Except String Unit := fun _ _ => .ok ()

def c9runs : List (Nat × Option String) := [(2, some "bad"), (1, some "good")]

def rrRows : List RecoReleaseRow := [⟨100, 0⟩, ⟨101, 3⟩]

def envOkSvc : AlgoEnv :=
  { tier0Config := none
    haveT0DataSvc := true
    transferSystemBaseDir := some "/data/transfer"
    feedStreamersResult := .ok () }

def envFeedFail : AlgoEnv :=
  { tier0Config := some ()
    haveT0DataSvc := true
    transferSystemBaseDir := some "/data/transfer"
    feedStreamersResult := .error "db down" }

def envNoDir : AlgoEnv :=
  { tier0Config := some ()
    haveT0DataSvc := true
    transferSystemBaseDir := initTransferSystemBaseDir (some "/data/transfer") (fun _ => false)
    feedStreamersResult := .ok () }

/-! ### Lemmas about the aggregates and the join -/

theorem minList_le : ∀ (l : List Nat), ∀ x ∈ l, minList l ≤ x
  | [] => by simp
  | [a] => by simp [minList]
  | a :: b :: t => by
    intro x hx
    have ih := minList_le (b :: t)
    simp only [minList]
    rcases List.mem_cons.mp hx with h | h
    · subst h; exact min_le_left _ _
    · exact le_trans (min_le_right _ _) (ih x h)

theorem le_maxList : ∀ (l : List Nat), ∀ x ∈ l, x ≤ maxList l
  | [] => by simp
  | [a] => by simp [maxList]
  | a :: b :: t => by
    intro x hx
    have ih := le_maxList (b :: t)
    simp only [maxList]
    rcases List.mem_cons.mp hx with h | h
    · subst h; exact le_max_left _ _
    · exact le_trans (ih x h) (le_max_right _ _)

theorem minList_mem : ∀ (l : List Nat), l ≠ [] → minList l ∈ l
  | [], h => absurd rfl h
  | [a], _ => by simp [minList]
  | a :: b :: t, _ => by
    have ih := minList_mem (b :: t) (by simp)
    simp only [minList]
    rcases le_total a (minList (b :: t)) with h | h
    · rw [min_eq_left h]; exact List.mem_cons_self _ _
    · rw [min_eq_right h]; exact List.mem_cons_of_mem _ ih

theorem maxList_mem : ∀ (l : List Nat), l ≠ [] → maxList l ∈ l
  | [], h => absurd rfl h
  | [a], _ => by simp [maxList]
  | a :: b :: t, _ => by
    have ih := maxList_mem (b :: t) (by simp)
    simp only [maxList]
    rcases le_total a (maxList (b :: t)) with h | h
    · rw [max_eq_right h]; exact List.mem_cons_of_mem _ ih
    · rw [max_eq_left h]; exact List.mem_cons_self _ _

theorem minList_eq_of_mutual_mem (l₁ l₂ : List Nat) (h₁ : l₁ ≠ []) (h₂ : l₂ ≠ [])
    (s₁ : ∀ x ∈ l₁, x ∈ l₂) (s₂ : ∀ x ∈ l₂, x ∈ l₁) : minList l₁ = minList l₂ :=
  Nat.le_antisymm (minList_le l₁ _ (s₂ _ (minList_mem l₂ h₂)))
    (minList_le l₂ _ (s₁ _ (minList_mem l₁ h₁)))

theorem maxList_eq_of_mutual_mem (l₁ l₂ : List Nat) (h₁ : l₁ ≠ []) (h₂ : l₂ ≠ [])
    (s₁ : ∀ x ∈ l₁, x ∈ l₂) (s₂ : ∀ x ∈ l₂, x ∈ l₁) : maxList l₁ = maxList l₂ :=
  Nat.le_antisymm (le_maxList l₂ _ (s₁ _ (maxList_mem l₁ h₁)))
    (le_maxList l₁ _ (s₂ _ (maxList_mem l₂ h₂)))

theorem minList_le_maxList (l : List Nat) (h : l ≠ []) : minList l ≤ maxList l :=
  le_maxList l _ (minList_mem l h)

theorem mem_ite_singleton {P : Prop} [Decidable P] (a b : Nat) :
    (a ∈ if P then [b] else []) ↔ P ∧ a = b := by
  by_cases h : P <;> simp [h]

theorem rowOK_iff (db : T0DB) (s : Nat) (t : JoinTuple) :
    rowOK db s t = true ↔
      t.rl.fileid = t.fa.fileid ∧ t.fd.id = t.fa.fileid ∧ t.fl.fileid = t.fa.fileid ∧
      t.loc.id = t.fl.location ∧ t.sub.id = t.fa.subscription ∧
      t.wo.output_fileset = t.sub.fileset ∧ t.assoc.run_id = t.rl.run ∧
      (subqueryFilesets db t.wo.workflow_id).contains t.assoc.fileset = true ∧
      t.fa.subscription = s ∧
      lockMatches db t.rl.run t.rl.lumi t.assoc.stream_id = false := by
  simp [rowOK, Bool.and_eq_true, Bool.not_eq_true', and_assoc]

theorem mem_joinTuples_iff (db : T0DB) (t : JoinTuple) :
    t ∈ joinTuples db ↔
      t.fa ∈ db.wmbs_sub_files_available ∧ t.rl ∈ db.wmbs_file_runlumi_map ∧
      t.fd ∈ db.wmbs_file_details ∧ t.fl ∈ db.wmbs_file_location ∧
      t.loc ∈ db.wmbs_location ∧ t.sub ∈ db.wmbs_subscription ∧
      t.wo ∈ db.wmbs_workflow_output ∧ t.assoc ∈ db.run_stream_fileset_assoc := by
  cases t with
  | mk fa rl fd fl loc sub wo assoc =>
    constructor
    · intro h
      simp only [joinTuples, List.mem_flatMap, List.mem_map] at h
      obtain ⟨fa1, h1, rl1, h2, fd1, h3, fl1, h4, loc1, h5, sub1, h6, wo1, h7, assoc1, h8, heq⟩ := h
      cases heq
      exact ⟨h1, h2, h3, h4, h5, h6, h7, h8⟩
    · rintro ⟨h1, h2, h3, h4, h5, h6, h7, h8⟩
      simp only [joinTuples, List.mem_flatMap, List.mem_map]
      exact ⟨fa, h1, rl, h2, fd, h3, fl, h4, loc, h5, sub, h6, wo, h7, assoc, h8, rfl⟩

theorem mem_joinRows_iff (db : T0DB) (s : Nat) (r : JoinRow) :
    r ∈ joinRows db s ↔ ∃ t, t ∈ joinTuples db ∧ rowOK db s t = true ∧ mkJoinRow t = r := by
  simp only [joinRows, List.mem_map, List.mem_filter]
  constructor
  · rintro ⟨t, ⟨ht, hok⟩, heq⟩
    exact ⟨t, ht, hok, heq⟩
  · rintro ⟨t, ht, hok, heq⟩
    exact ⟨t, ⟨ht, hok⟩, heq⟩

theorem mem_groupLumis_iff (db : T0DB) (s : Nat) (k : GroupKey) (l : Nat) :
    l ∈ groupLumis db s k ↔ ∃ jr, jr ∈ joinRows db s ∧ keyOf jr = k ∧ jr.lumi = l := by
  simp only [groupLumis, List.mem_map, List.mem_filter, beq_iff_eq]
  constructor
  · rintro ⟨jr, ⟨hjr, hk⟩, hl⟩
    exact ⟨jr, hjr, hk, hl⟩
  · rintro ⟨jr, hjr, hk, hl⟩
    exact ⟨jr, ⟨hjr, hk⟩, hl⟩

theorem mem_survivingLumis_iff (db : T0DB) (s fid l : Nat) :
    l ∈ survivingLumis db s fid ↔
      ∃ rl, rl ∈ db.wmbs_file_runlumi_map ∧
      ∃ sub, sub ∈ db.wmbs_subscription ∧
      ∃ wo, wo ∈ db.wmbs_workflow_output ∧
      ∃ assoc, assoc ∈ db.run_stream_fileset_assoc ∧
        rl.fileid = fid ∧ sub.id = s ∧ wo.output_fileset = sub.fileset ∧
        assoc.run_id = rl.run ∧
        (subqueryFilesets db wo.workflow_id).contains assoc.fileset = true ∧
        lockMatches db rl.run rl.lumi assoc.stream_id = false ∧ rl.lumi = l := by
  simp only [survivingLumis, List.mem_flatMap, mem_ite_singleton,
    Bool.and_eq_true, beq_iff_eq, Bool.not_eq_true']
  constructor
  · rintro ⟨rl, hrl, sub, hsub, wo, hwo, assoc, hassoc,
      ⟨⟨⟨⟨⟨h1, h2⟩, h3⟩, h4⟩, h5⟩, h6⟩, h7⟩
    exact ⟨rl, hrl, sub, hsub, wo, hwo, assoc, hassoc, h1, h2, h3, h4, h5, h6, h7.symm⟩
  · rintro ⟨rl, hrl, sub, hsub, wo, hwo, assoc, hassoc, h1, h2, h3, h4, h5, h6, h7⟩
    exact ⟨rl, hrl, sub, hsub, wo, hwo, assoc, hassoc,
      ⟨⟨⟨⟨⟨h1, h2⟩, h3⟩, h4⟩, h5⟩, h6⟩, h7.symm⟩

theorem mem_execute_iff (db : T0DB) (s : Nat) (r : ResultRow) :
    r ∈ execute db s ↔ ∃ k, (∃ jr, jr ∈ joinRows db s ∧ keyOf jr = k) ∧
      r = ⟨k.fileid, k.filesize, k.events, k.lfn, k.se_name,
           minList (groupLumis db s k), maxList (groupLumis db s k)⟩ := by
  simp only [execute, List.mem_map, List.mem_dedup]
  constructor
  · rintro ⟨k, hk, heq⟩
    exact ⟨k, hk, heq.symm⟩
  · rintro ⟨k, hk, heq⟩
    exact ⟨k, hk, heq.symm⟩

theorem lockMatches_eq_false_iff (db : T0DB) (run lumi streamId : Nat) :
    lockMatches db run lumi streamId = false ↔
      ∀ ls, ls ∈ db.lumi_section_split_active →
        ¬(ls.run_id = run ∧ ls.lumi_id = lumi ∧ ls.stream_id = streamId) := by
  simp [lockMatches, List.any_eq_false, Bool.and_eq_true, not_and]

/-- For any result group key witnessed by a surviving row, the group's lumis
are exactly the file's surviving lumi associations. -/
theorem groupLumis_iff_survivingLumis (db : T0DB) (s : Nat) (k : GroupKey)
    (jr0 : JoinRow) (h0 : jr0 ∈ joinRows db s) (hk : keyOf jr0 = k) :
    ∀ l, l ∈ groupLumis db s k ↔ l ∈ survivingLumis db s k.fileid := by
  obtain ⟨t0, ht0, hok0, hmk0⟩ := (mem_joinRows_iff db s jr0).mp h0
  subst hmk0
  subst hk
  obtain ⟨o1, o2, o3, o4, o5, o6, o7, o8, o9, o10⟩ := (rowOK_iff db s t0).mp hok0
  obtain ⟨m1, m2, m3, m4, m5, m6, m7, m8⟩ := (mem_joinTuples_iff db t0).mp ht0
  intro l
  constructor
  · intro hl
    obtain ⟨jr, hjr, hkey, hlumi⟩ := (mem_groupLumis_iff db s _ l).mp hl
    obtain ⟨t, ht, hok, hmk⟩ := (mem_joinRows_iff db s jr).mp hjr
    subst hmk
    obtain ⟨p1, p2, p3, p4, p5, p6, p7, p8, p9, p10⟩ := (rowOK_iff db s t).mp hok
    obtain ⟨n1, n2, n3, n4, n5, n6, n7, n8⟩ := (mem_joinTuples_iff db t).mp ht
    have hfid : (keyOf (mkJoinRow t)).fileid = (keyOf (mkJoinRow t0)).fileid :=
      congrArg GroupKey.fileid hkey
    refine (mem_survivingLumis_iff db s _ l).mpr
      ⟨t.rl, n2, t.sub, n6, t.wo, n7, t.assoc, n8, ?_, ?_, p6, p7, p8, p10, ?_⟩
    · exact p1.trans hfid
    · exact p5.trans p9
    · exact hlumi
  · intro hl
    obtain ⟨rl, hrl, sub, hsub, wo, hwo, assoc, hassoc, q1, q2, q3, q4, q5, q6, q7⟩ :=
      (mem_survivingLumis_iff db s _ l).mp hl
    refine (mem_groupLumis_iff db s _ l).mpr
      ⟨mkJoinRow ⟨t0.fa, rl, t0.fd, t0.fl, t0.loc, sub, wo, assoc⟩, ?_, ?_, ?_⟩
    · refine (mem_joinRows_iff db s _).mpr ⟨⟨t0.fa, rl, t0.fd, t0.fl, t0.loc, sub, wo, assoc⟩, ?_, ?_, rfl⟩
      · exact (mem_joinTuples_iff db _).mpr ⟨m1, hrl, m3, m4, m5, hsub, hwo, hassoc⟩
      · exact (rowOK_iff db s _).mpr
          ⟨q1, o2, o3, o4, q2.trans o9.symm, q3, q4, q5, o9, q6⟩
    · rfl
    · exact q7

/-- C2 as amended: the reported lumi range of a returned file is the
min/max over the lumi associations that survive the query's per-row filter
(run matched to the owning fileset and not under an active split lock),
and first_lumi is never above last_lumi. -/
theorem c2_amended_thm (db : T0DB) (s : Nat) (r : ResultRow) (h : r ∈ execute db s) :
    r.first_lumi = minList (survivingLumis db s r.id) ∧
    r.last_lumi = maxList (survivingLumis db s r.id) ∧
    r.first_lumi ≤ r.last_lumi := by
  obtain ⟨k, ⟨jr0, hjr0, hk⟩, hr⟩ := (mem_execute_iff db s r).mp h
  subst hr
  have hiff := groupLumis_iff_survivingLumis db s k jr0 hjr0 hk
  have hne : groupLumis db s k ≠ [] := by
    have hmem : jr0.lumi ∈ groupLumis db s k :=
      (mem_groupLumis_iff db s k _).mpr ⟨jr0, hjr0, hk, rfl⟩
    exact List.ne_nil_of_mem hmem
  have hne' : survivingLumis db s k.fileid ≠ [] := by
    obtain ⟨x, hx⟩ := List.exists_mem_of_ne_nil _ hne
    exact List.ne_nil_of_mem ((hiff x).mp hx)
  refine ⟨?_, ?_, ?_⟩
  · exact minList_eq_of_mutual_mem _ _ hne hne'
      (fun x hx => (hiff x).mp hx) (fun x hx => (hiff x).mpr hx)
  · exact maxList_eq_of_mutual_mem _ _ hne hne'
      (fun x hx => (hiff x).mp hx) (fun x hx => (hiff x).mpr hx)
  · exact minList_le_maxList _ hne

/-- C1 as amended: every returned row's file is available for the queried
subscription and has at least one lumi association that is run-matched to
the owning fileset and not under an active split lock for the owning
stream; a file is excluded only when every such association is locked, not
when any one of them is. -/
theorem c1_amended_thm (db : T0DB) (s : Nat) (r : ResultRow) (h : r ∈ execute db s) :
    ∃ fa, fa ∈ db.wmbs_sub_files_available ∧ fa.subscription = s ∧ fa.fileid = r.id ∧
    ∃ rl, rl ∈ db.wmbs_file_runlumi_map ∧ rl.fileid = r.id ∧
    ∃ sub, sub ∈ db.wmbs_subscription ∧ sub.id = s ∧
    ∃ wo, wo ∈ db.wmbs_workflow_output ∧ wo.output_fileset = sub.fileset ∧
    ∃ assoc, assoc ∈ db.run_stream_fileset_assoc ∧ assoc.run_id = rl.run ∧
      (subqueryFilesets db wo.workflow_id).contains assoc.fileset = true ∧
      ∀ ls, ls ∈ db.lumi_section_split_active →
        ¬(ls.run_id = rl.run ∧ ls.lumi_id = rl.lumi ∧ ls.stream_id = assoc.stream_id) := by
  obtain ⟨k, ⟨jr0, hjr0, hk⟩, hr⟩ := (mem_execute_iff db s r).mp h
  subst hr
  obtain ⟨t0, ht0, hok0, hmk0⟩ := (mem_joinRows_iff db s jr0).mp hjr0
  subst hmk0
  subst hk
  obtain ⟨o1, o2, o3, o4, o5, o6, o7, o8, o9, o10⟩ := (rowOK_iff db s t0).mp hok0
  obtain ⟨m1, m2, m3, m4, m5, m6, m7, m8⟩ := (mem_joinTuples_iff db t0).mp ht0
  exact ⟨t0.fa, m1, o9, rfl, t0.rl, m2, o1, t0.sub, m6, o5.trans o9, t0.wo, m7, o6,
    t0.assoc, m8, o7, o8, (lockMatches_eq_false_iff db _ _ _).mp o10⟩

/-- C1 counterexample: in `c1db` the stream 77 owns the subscription's
fileset chain, file 10 has the lumi association (200,11), and an active
split lock exists for (200,11,77); yet the file still appears in the query
result (with the locked association merely dropped from its lumi range). -/
theorem c1_counterexample :
    c1row ∈ execute c1db 1 ∧
    (⟨10, 200, 11⟩ : RunLumiRow) ∈ c1db.wmbs_file_runlumi_map ∧
    (⟨200, 11, 77⟩ : LumiSectionSplitActiveRow) ∈ c1db.lumi_section_split_active ∧
    c1db.run_stream_fileset_assoc = [⟨200, 50, 77⟩] := by decide

/-- Witness for the amended C1 theorem at the concrete database `c1db`. -/
theorem c1_amended_witness :
    c1row ∈ execute c1db 1 ∧
    (∃ fa, fa ∈ c1db.wmbs_sub_files_available ∧ fa.subscription = 1 ∧ fa.fileid = c1row.id ∧
     ∃ rl, rl ∈ c1db.wmbs_file_runlumi_map ∧ rl.fileid = c1row.id ∧
     ∃ sub, sub ∈ c1db.wmbs_subscription ∧ sub.id = 1 ∧
     ∃ wo, wo ∈ c1db.wmbs_workflow_output ∧ wo.output_fileset = sub.fileset ∧
     ∃ assoc, assoc ∈ c1db.run_stream_fileset_assoc ∧ assoc.run_id = rl.run ∧
       (subqueryFilesets c1db wo.workflow_id).contains assoc.fileset = true ∧
       ∀ ls, ls ∈ c1db.lumi_section_split_active →
         ¬(ls.run_id = rl.run ∧ ls.lumi_id = rl.lumi ∧ ls.stream_id = assoc.stream_id)) :=
  ⟨by decide, c1_amended_thm c1db 1 c1row (by decide)⟩

/-- C2 counterexample: in `c2db` the returned file 20 has lumi associations
{(300,7),(300,8),(300,9)} with a split lock on (300,9,77); the reported
last_lumi is 8, not the maximum 9 over all of the file's associations. -/
theorem c2_counterexample :
    (execute c2db 1).map (fun r => r.last_lumi) = [8] ∧
    (execute c2db 1).map (fun r => r.id) = [20] ∧
    (⟨20, 300, 9⟩ : RunLumiRow) ∈ c2db.wmbs_file_runlumi_map ∧
    maxList ((c2db.wmbs_file_runlumi_map.filter fun rl => rl.fileid == 20).map
      fun rl => rl.lumi) = 9 := by decide

/-- Witness for the amended C2 theorem at the concrete database `c1db`. -/
theorem c2_amended_witness :
    c1row ∈ execute c1db 1 ∧
    (c1row.first_lumi = minList (survivingLumis c1db 1 c1row.id) ∧
     c1row.last_lumi = maxList (survivingLumis c1db 1 c1row.id) ∧
     c1row.first_lumi ≤ c1row.last_lumi) :=
  ⟨by decide, c2_amended_thm c1db 1 c1row (by decide)⟩

/-! ### Tier0FeederPoller theorems -/

/-- C3: the Python condition `response == "OK" or "EXISTS"` is truthy for
every response, so a workflow whose monitoring-store insert (resp. status
update) returned "Error" is still marked tracked (resp. closed out),
contrary to the documented mark-only-on-success policy. -/
theorem c3_code_bug_eval :
    feedCouchMonitoring [⟨1, 100, "Repack_Run100_StreamA"⟩] (fun _ => "Error") = [1] ∧
    updateClosedState "Error" 2 = [2] ∧
    monitoringMarkCondition "Error" = true ∧
    (∀ response : String, monitoringMarkCondition response = true) := by
  refine ⟨by decide, by decide, by decide, ?_⟩
  intro response
  simp [monitoringMarkCondition, pyStringTruthy]

theorem flatten_chunk_slices :
    ∀ (k : Nat) (l : List Streamer), l.length ≤ 50 * k →
      (((List.range k).map fun j => (l.drop (j * 50)).take 50).flatten) = l := by
  intro k
  induction k with
  | zero =>
    intro l h
    simp only [Nat.mul_zero, Nat.le_zero] at h
    simp [List.length_eq_zero.mp h]
  | succ k ih =>
    intro l h
    rw [List.range_succ_eq_map]
    simp only [List.map_cons, List.map_map, List.flatten_cons, Nat.zero_mul,
      List.drop_zero]
    have hmap : (List.range k).map ((fun j => (l.drop (j * 50)).take 50) ∘ Nat.succ) =
        (List.range k).map fun j => ((l.drop 50).drop (j * 50)).take 50 := by
      refine List.map_congr_left ?_
      intro j _
      have hsucc : Nat.succ j * 50 = j * 50 + 50 := by omega
      have h2 : (l.drop 50).drop (j * 50) = l.drop (j * 50 + 50) := by
        rw [List.drop_drop, Nat.add_comm]
      simp only [Function.comp, hsucc, h2]
    rw [hmap, ih (l.drop 50) (by simp [List.length_drop]; omega)]
    exact List.take_append_drop 50 l

theorem notifyChunks_flatten (l : List Streamer) : (notifyChunks l).flatten = l := by
  have hk : l.length ≤ 50 * ((l.length + 49) / 50) := by omega
  have h := flatten_chunk_slices ((l.length + 49) / 50) l hk
  simpa [notifyChunks, pyRangeStep, List.map_map, Function.comp] using h

/-- C4: the notification pass partitions the fetched streamers in order into
consecutive chunks (each of size min 50 remaining), invokes the notifier
once per chunk (⌈n/50⌉ invocations), marks exactly the fetched streamers as
finished, and its behaviour does not depend on the notifier's error
report. -/
theorem c4_theorem (l : List Streamer) (err err' : List String → Bool) :
    (notifyStorageManager l err).marked = l.map (fun st => st.id) ∧
    (notifyStorageManager l err).invocations.length = (l.length + 49) / 50 ∧
    (notifyChunks l).flatten = l ∧
    (∀ i, ∀ h : i < (notifyChunks l).length,
        ((notifyChunks l).get ⟨i, h⟩).length = min 50 (l.length - i * 50)) ∧
    (∀ c ∈ notifyChunks l, c.length ≤ 50) ∧
    notifyStorageManager l err = notifyStorageManager l err' := by
  refine ⟨?_, ?_, notifyChunks_flatten l, ?_, ?_, rfl⟩
  · show ((notifyChunks l).map fun c => c.map fun st => st.id).flatten = _
    rw [show ((notifyChunks l).map fun c => c.map fun st => st.id) =
        ((notifyChunks l).map (List.map fun st => st.id)) from rfl]
    rw [← List.map_flatten, notifyChunks_flatten]
  · simp [notifyStorageManager, notifyChunks, pyRangeStep]
  · intro i h
    simp only [notifyChunks, pyRangeStep, List.map_map] at h ⊢
    simp [List.get_eq_getElem, List.getElem_map, List.getElem_range,
      List.length_take, List.length_drop, Function.comp]
  · intro c hc
    simp only [notifyChunks, List.mem_map] at hc
    obtain ⟨i, _, rfl⟩ := hc
    exact List.length_take_le 50 _

set_option maxRecDepth 16384 in
/-- Witness for C4 at 120 streamers: 3 invocations sized 50, 50, 20, and all
120 streamer ids marked, independent of the notifier error report. -/
theorem c4_witness :
    (notifyStorageManager l120 (fun _ => false)).marked = l120.map (fun st => st.id) ∧
    (notifyStorageManager l120 (fun _ => false)).invocations.length = (l120.length + 49) / 50 ∧
    ((notifyChunks l120).get ⟨2, by decide⟩).length = min 50 (l120.length - 2 * 50) ∧
    (notifyStorageManager l120 (fun _ => false)).invocations.map List.length = [50, 50, 20] ∧
    notifyStorageManager l120 (fun _ => false) = notifyStorageManager l120 (fun _ => true) := by
  have h := c4_theorem l120 (fun _ => false) (fun _ => true)
  exact ⟨h.1, h.2.1, h.2.2.2.1 2 (by decide), by decide, h.2.2.2.2.2⟩

/-- C5: the streamer feed commits exactly when the feed call succeeds; a
feed exception leaves the transaction uncommitted, aborts the cycle, and no
phase after the feed attempt runs. -/
theorem c5_theorem (env : AlgoEnv) :
    ((algorithm env).feedCommitted = true ↔ ∃ u, env.feedStreamersResult = .ok u) ∧
    ((algorithm env).abortedCycle = true ↔ ∃ e, env.feedStreamersResult = .error e) ∧
    (∀ e, env.feedStreamersResult = .error e →
      (algorithm env).feedCommitted = false ∧
      Phase.feedStreamersAttempt ∈ (algorithm env).executed ∧
      Phase.feedStreamersCommit ∉ (algorithm env).executed ∧
      Phase.closeRunStreamFilesets ∉ (algorithm env).executed ∧
      Phase.checkActiveSplitLumis ∉ (algorithm env).executed ∧
      Phase.feedCouchMonitoringPhase ∉ (algorithm env).executed ∧
      Phase.closeOutRealTimeWorkflows ∉ (algorithm env).executed ∧
      Phase.notifyStorageManagerPhase ∉ (algorithm env).executed ∧
      Phase.uploadConditions ∉ (algorithm env).executed) := by
  obtain ⟨cfg, svc, dir, feed⟩ := env
  cases feed <;> cases cfg <;> cases svc <;> cases dir <;> simp [algorithm]

/-- C6: only the two configuration phases are conditioned on a loadable
Tier0 configuration; every other phase's execution is unchanged when the
configuration fails to load, and with a failed configuration load all
remaining phases (sync when the data service is configured, notification
when the transfer directory is configured) still run provided the feed does
not abort the cycle. -/
theorem c6_theorem (env : AlgoEnv) :
    (Phase.configureRuns ∈ (algorithm env).executed ↔ env.tier0Config.isSome = true) ∧
    (Phase.configureRunStreams ∈ (algorithm env).executed ↔ env.tier0Config.isSome = true) ∧
    (∀ p : Phase, p ≠ Phase.configureRuns → p ≠ Phase.configureRunStreams →
        (p ∈ (algorithm env).executed ↔
         p ∈ (algorithm { env with tier0Config := none }).executed)) ∧
    (env.tier0Config = none → env.haveT0DataSvc = true →
      env.transferSystemBaseDir.isSome = true →
      (∀ e, env.feedStreamersResult ≠ .error e) →
      ∀ q ∈ [Phase.stopRuns, Phase.closeRuns, Phase.releaseExpress, Phase.releasePromptReco,
        Phase.syncRunStreamDone, Phase.syncExpressConfigs, Phase.syncRecoConfigs,
        Phase.syncRecoReleaseConfigs, Phase.syncDatasetLocked,
        Phase.markWorkflowsInjected true, Phase.closeLumiSections,
        Phase.feedStreamersAttempt, Phase.feedStreamersCommit, Phase.closeRunStreamFilesets,
        Phase.checkActiveSplitLumis, Phase.feedCouchMonitoringPhase,
        Phase.closeOutRealTimeWorkflows, Phase.notifyStorageManagerPhase,
        Phase.uploadConditions], q ∈ (algorithm env).executed) := by
  obtain ⟨cfg, svc, dir, feed⟩ := env
  refine ⟨?_, ?_, ?_, ?_⟩
  · cases feed <;> cases cfg <;> cases svc <;> cases dir <;> simp [algorithm]
  · cases feed <;> cases cfg <;> cases svc <;> cases dir <;> simp [algorithm]
  · intro p h1 h2
    cases feed <;> cases cfg <;> simp [algorithm, h1, h2]
  · intro hcfg hsvc hdir hfeed q hq
    cases feed with
    | error e => exact absurd rfl (hfeed e)
    | ok u =>
      cases cfg with
      | some c => exact absurd hcfg (by simp)
      | none =>
        cases dir with
        | none => exact absurd hdir (by simp)
        | some d =>
          subst hsvc
          fin_cases hq <;> simp [algorithm]

/-- C10: a configured transfer-system base directory that does not exist at
construction time is normalized to None, so every cycle passes a false
injected flag and never runs the StorageManager notification phase; the
notification phase runs only under a present (configured and existing)
directory. -/
theorem c10_theorem (cfgDir : String) (dirOnDisk : String → Bool) (env : AlgoEnv)
    (hmiss : dirOnDisk cfgDir = false)
    (henv : env.transferSystemBaseDir = initTransferSystemBaseDir (some cfgDir) dirOnDisk) :
    env.transferSystemBaseDir = none ∧
    Phase.markWorkflowsInjected false ∈ (algorithm env).executed ∧
    (∀ b : Bool, Phase.markWorkflowsInjected b ∈ (algorithm env).executed → b = false) ∧
    Phase.notifyStorageManagerPhase ∉ (algorithm env).executed ∧
    (∀ env' : AlgoEnv, Phase.notifyStorageManagerPhase ∈ (algorithm env').executed →
        env'.transferSystemBaseDir.isSome = true) := by
  have hnone : env.transferSystemBaseDir = none := by
    rw [henv]
    simp [initTransferSystemBaseDir, hmiss]
  obtain ⟨cfg, svc, dir, feed⟩ := env
  simp only at hnone
  subst hnone
  refine ⟨rfl, ?_, ?_, ?_, ?_⟩
  · cases feed <;> cases cfg <;> cases svc <;> simp [algorithm]
  · intro b
    cases feed <;> cases cfg <;> cases svc <;> simp [algorithm]
  · cases feed <;> cases cfg <;> cases svc <;> simp [algorithm]
  · intro env'
    obtain ⟨cfg', svc', dir', feed'⟩ := env'
    cases feed' <;> cases cfg' <;> cases svc' <;> cases dir' <;> simp [algorithm]

/-- C7 counterexample: for the dataset-lock category the downstream insert
is keyed by the dataset path while the primary-store mark is keyed by the
fetched row's id; two fetched rows with the same natural key (path) but
different ids produce different mark batches, so the mark batch is not
keyed by the same natural key as the insert batch. -/
theorem c7_counterexample :
    (⟨"/PathX", 1⟩ : DatasetLockedRow).path = (⟨"/PathX", 2⟩ : DatasetLockedRow).path ∧
    lockDatasetsT0DataSvc [⟨"/PathX", 1⟩] ≠ lockDatasetsT0DataSvc [⟨"/PathX", 2⟩] ∧
    lockDatasetsT0DataSvc [⟨"/PathX", 1⟩] =
      [.insertDownstream [⟨"/PathX"⟩], .markSynced [⟨1⟩]] := by
  refine ⟨rfl, ?_, rfl⟩
  decide

/-- C7 as amended: each of the five sync sub-phases is a no-op when the
primary-store query returns no rows, and otherwise issues exactly one
downstream insert strictly before one primary-store mark, both batches
built row-for-row from the same fetched rows; the batches share their
natural keys for run/stream-done, express-config, reco-config and
reco-release, while dataset-lock inserts by path and marks by row id. -/
theorem c7_amended_thm (a : List RunStreamDoneRow) (b : List ExpressConfigRow)
    (c : List RecoConfigRow) (d : List RecoReleaseRow) (e : List DatasetLockedRow) :
    (updateRunStreamDoneT0DataSvc [] = [] ∧ updateExpressConfigsT0DataSvc [] = [] ∧
     updateRecoConfigsT0DataSvc [] = [] ∧ updateRecoReleaseConfigsT0DataSvc [] = [] ∧
     lockDatasetsT0DataSvc [] = []) ∧
    (a ≠ [] → ∃ bi, updateRunStreamDoneT0DataSvc a =
        [.insertDownstream bi, .markSynced bi] ∧ bi.length = a.length) ∧
    (b ≠ [] → ∃ bi bu, updateExpressConfigsT0DataSvc b =
        [.insertDownstream bi, .markSynced bu] ∧
        bu = bi.map (fun x => (⟨x.run, x.stream⟩ : ExpressUpdateBind)) ∧
        bi.length = b.length) ∧
    (c ≠ [] → ∃ bi bu, updateRecoConfigsT0DataSvc c =
        [.insertDownstream bi, .markSynced bu] ∧
        bu = bi.map (fun x => (⟨x.run, x.primds⟩ : RecoUpdateBind)) ∧
        bi.length = c.length) ∧
    (d ≠ [] → ∃ bi bu, updateRecoReleaseConfigsT0DataSvc d =
        [.insertDownstream bi, .markSynced bu] ∧
        bu.map (fun x => x.run) = bi.map (fun x => x.run) ∧
        bi.length = d.length) ∧
    (e ≠ [] → ∃ bi bu, lockDatasetsT0DataSvc e =
        [.insertDownstream bi, .markSynced bu] ∧
        bi = e.map (fun x => (⟨x.path⟩ : DatasetLockedInsertBind)) ∧
        bu = e.map (fun x => (⟨x.id⟩ : DatasetLockedUpdateBind))) := by
  refine ⟨⟨rfl, rfl, rfl, rfl, rfl⟩, ?_, ?_, ?_, ?_, ?_⟩
  · intro h
    have hpos : a.length > 0 := List.length_pos.mpr h
    rw [updateRunStreamDoneT0DataSvc, if_pos hpos]
    exact ⟨_, rfl, List.length_map _ _⟩
  · intro h
    have hpos : b.length > 0 := List.length_pos.mpr h
    rw [updateExpressConfigsT0DataSvc, if_pos hpos]
    refine ⟨_, _, rfl, ?_, List.length_map _ _⟩
    rw [List.map_map]
    rfl
  · intro h
    have hpos : c.length > 0 := List.length_pos.mpr h
    rw [updateRecoConfigsT0DataSvc, if_pos hpos]
    refine ⟨_, _, rfl, ?_, List.length_map _ _⟩
    rw [List.map_map]
    rfl
  · intro h
    have hpos : d.length > 0 := List.length_pos.mpr h
    rw [updateRecoReleaseConfigsT0DataSvc, if_pos hpos]
    refine ⟨_, _, rfl, ?_, List.length_map _ _⟩
    rw [List.map_map, List.map_map]
    rfl
  · intro h
    have hpos : e.length > 0 := List.length_pos.mpr h
    rw [lockDatasetsT0DataSvc, if_pos hpos]
    exact ⟨_, _, rfl, rfl, rfl⟩

/-- Witness for the amended C7 theorem at concrete one-row inputs. -/
theorem c7_amended_witness :
    updateRunStreamDoneT0DataSvc [] = [] ∧
    (∃ bi, updateRunStreamDoneT0DataSvc [⟨100, "StreamA"⟩] =
        [.insertDownstream bi, .markSynced bi] ∧
        bi.length = ([⟨100, "StreamA"⟩] : List RunStreamDoneRow).length) ∧
    (∃ bi bu, lockDatasetsT0DataSvc [⟨"/A/B/C", 7⟩] =
        [.insertDownstream bi, .markSynced bu] ∧
        bi = ([⟨"/A/B/C", 7⟩] : List DatasetLockedRow).map
          (fun x => (⟨x.path⟩ : DatasetLockedInsertBind)) ∧
        bu = ([⟨"/A/B/C", 7⟩] : List DatasetLockedRow).map
          (fun x => (⟨x.id⟩ : DatasetLockedUpdateBind))) :=
  ⟨(c7_amended_thm [] [] [] [] []).1.1,
   (c7_amended_thm [⟨100, "StreamA"⟩] [] [] [] []).2.1 (by decide),
   (c7_amended_thm [] [] [] [] [⟨"/A/B/C", 7⟩]).2.2.2.2.2 (by decide)⟩

/-- C8: for every fetched reco-release row the downstream LOCKED value is 1
exactly when the row's released counter is positive (0 otherwise), and the
primary-store synced flag is updated with locked + 1. -/
theorem c8_theorem (rows : List RecoReleaseRow) (hne : rows ≠ []) :
    ∃ bi bu, updateRecoReleaseConfigsT0DataSvc rows =
      [.insertDownstream bi, .markSynced bu] ∧
      bi = rows.map (fun r => (⟨r.run, if 0 < r.released then 1 else 0⟩ : RecoReleaseInsertBind)) ∧
      bu = bi.map (fun x => (⟨x.run, x.locked + 1⟩ : RecoReleaseUpdateBind)) ∧
      (∀ x ∈ bi, x.locked = 0 ∨ x.locked = 1) := by
  have hpos : rows.length > 0 := List.length_pos.mpr hne
  rw [updateRecoReleaseConfigsT0DataSvc, if_pos hpos]
  refine ⟨_, _, rfl, rfl, ?_, ?_⟩
  · rw [List.map_map]
    rfl
  · intro x hx
    obtain ⟨r, _, rfl⟩ := List.mem_map.mp hx
    by_cases hr : 0 < r.released <;> simp [pyInt, hr]

/-- Witness for C8 at two concrete rows, one unreleased and one released. -/
theorem c8_witness :
    (rrRows ≠ []) ∧
    (∃ bi bu, updateRecoReleaseConfigsT0DataSvc rrRows =
      [.insertDownstream bi, .markSynced bu] ∧
      bi = rrRows.map (fun r => (⟨r.run, if 0 < r.released then 1 else 0⟩ : RecoReleaseInsertBind)) ∧
      bu = bi.map (fun x => (⟨x.run, x.locked + 1⟩ : RecoReleaseUpdateBind)) ∧
      (∀ x ∈ bi, x.locked = 0 ∨ x.locked = 1)) :=
  ⟨by decide, c8_theorem rrRows (by decide)⟩

/-- C9: a retrieved HLT configuration is treated as invalid (run skipped)
exactly when its process is absent or its mapping is empty; the loop
processes every run, in ascending run-number order, and each run's outcome
depends only on that run's own key, so one run's failure never blocks the
others. -/
theorem c9_theorem (getHLT : String → Except String HLTConfig)
    (confRun : Nat → Option HLTConfig → Except String Unit)
    (runHltkeys : List (Nat × Option String)) :
    (∀ run key cfg, getHLT key = .ok cfg →
        (processRun getHLT confRun run (some key) = .invalidHLTConfig ↔
          (cfg.process = none ∨ cfg.mapping = []))) ∧
    List.Sorted (fun x y => x.1 ≤ y.1) (configureNewRuns getHLT confRun runHltkeys) ∧
    List.Perm ((configureNewRuns getHLT confRun runHltkeys).map Prod.fst)
      (runHltkeys.map Prod.fst) ∧
    (∀ q ∈ runHltkeys,
      (q.1, processRun getHLT confRun q.1 q.2) ∈ configureNewRuns getHLT confRun runHltkeys) := by
  refine ⟨?_, ?_, ?_, ?_⟩
  · intro run key cfg h
    simp only [processRun, h]
    by_cases hc : cfg.process.isNone || cfg.mapping.length == 0
    · rw [if_pos hc]
      simp only [Bool.or_eq_true, Option.isNone_iff_eq_none, beq_iff_eq,
        List.length_eq_zero] at hc
      simpa using hc
    · rw [if_neg hc]
      simp only [Bool.or_eq_true, Option.isNone_iff_eq_none, beq_iff_eq,
        List.length_eq_zero] at hc
      push_neg at hc
      cases hcr : confRun run (some cfg) <;>
        simp [hcr, not_or, hc.1, hc.2]
  · have hs := List.sorted_insertionSort
      (fun x y : Nat × Option String => x.1 ≤ y.1) runHltkeys
    exact List.Pairwise.map _ (fun a b hab => hab) hs
  · have hp := List.perm_insertionSort
      (fun x y : Nat × Option String => x.1 ≤ y.1) runHltkeys
    have hp2 := hp.map Prod.fst
    simpa [configureNewRuns, List.map_map, Function.comp] using hp2
  · intro q hq
    have hq2 : q ∈ List.insertionSort (fun x y : Nat × Option String => x.1 ≤ y.1) runHltkeys :=
      ((List.perm_insertionSort _ _).mem_iff).mpr hq
    exact List.mem_map.mpr ⟨q, hq2, rfl⟩

/-- Witness for C9 at two concrete runs: run 2 has an invalid (process-less)
HLT configuration and is skipped, while run 1 is still configured in the
same cycle. -/
theorem c9_witness :
    (processRun c9hlt c9conf 2 (some "bad") = .invalidHLTConfig) ∧
    ((2, RunConfigOutcome.invalidHLTConfig) ∈ configureNewRuns c9hlt c9conf c9runs) ∧
    ((1, RunConfigOutcome.configured) ∈ configureNewRuns c9hlt c9conf c9runs) := by
  have h := c9_theorem c9hlt c9conf c9runs
  refine ⟨?_, ?_, ?_⟩
  · exact (h.1 2 "bad" ⟨none, [("path1", "dataset1")]⟩ rfl).mpr (Or.inl rfl)
  · have hm := h.2.2.2 (2, some "bad") (by decide)
    simpa [processRun, c9hlt, c9conf] using hm
  · have hm := h.2.2.2 (1, some "good") (by decide)
    simpa [processRun, c9hlt, c9conf] using hm

/-- Witness for C5 at a concrete environment whose feed call fails. -/
theorem c5_witness :
    ((algorithm envFeedFail).feedCommitted = true ↔
      ∃ u, envFeedFail.feedStreamersResult = .ok u) ∧
    ((algorithm envFeedFail).feedCommitted = false ∧
     Phase.feedStreamersAttempt ∈ (algorithm envFeedFail).executed ∧
     Phase.feedStreamersCommit ∉ (algorithm envFeedFail).executed ∧
     Phase.closeRunStreamFilesets ∉ (algorithm envFeedFail).executed ∧
     Phase.checkActiveSplitLumis ∉ (algorithm envFeedFail).executed ∧
     Phase.feedCouchMonitoringPhase ∉ (algorithm envFeedFail).executed ∧
     Phase.closeOutRealTimeWorkflows ∉ (algorithm envFeedFail).executed ∧
     Phase.notifyStorageManagerPhase ∉ (algorithm envFeedFail).executed ∧
     Phase.uploadConditions ∉ (algorithm envFeedFail).executed) :=
  ⟨(c5_theorem envFeedFail).1, (c5_theorem envFeedFail).2.2 "db down" rfl⟩

/-- Witness for C6 at a concrete environment whose configuration load
failed but whose data service, transfer directory and feed are all good. -/
theorem c6_witness :
    (Phase.configureRuns ∈ (algorithm envOkSvc).executed ↔
      envOkSvc.tier0Config.isSome = true) ∧
    (Phase.uploadConditions ∈ (algorithm envOkSvc).executed ↔
      Phase.uploadConditions ∈ (algorithm { envOkSvc with tier0Config := none }).executed) ∧
    (∀ q ∈ [Phase.stopRuns, Phase.closeRuns, Phase.releaseExpress, Phase.releasePromptReco,
        Phase.syncRunStreamDone, Phase.syncExpressConfigs, Phase.syncRecoConfigs,
        Phase.syncRecoReleaseConfigs, Phase.syncDatasetLocked,
        Phase.markWorkflowsInjected true, Phase.closeLumiSections,
        Phase.feedStreamersAttempt, Phase.feedStreamersCommit, Phase.closeRunStreamFilesets,
        Phase.checkActiveSplitLumis, Phase.feedCouchMonitoringPhase,
        Phase.closeOutRealTimeWorkflows, Phase.notifyStorageManagerPhase,
        Phase.uploadConditions], q ∈ (algorithm envOkSvc).executed) :=
  ⟨(c6_theorem envOkSvc).1,
   (c6_theorem envOkSvc).2.2.1 Phase.uploadConditions (by decide) (by decide),
   (c6_theorem envOkSvc).2.2.2 rfl rfl rfl (fun e h => by simp [envOkSvc] at h)⟩

/-- Witness for C10 at a concrete environment whose configured transfer
directory did not exist at construction time. -/
theorem c10_witness :
    envNoDir.transferSystemBaseDir = none ∧
    Phase.markWorkflowsInjected false ∈ (algorithm envNoDir).executed ∧
    Phase.notifyStorageManagerPhase ∉ (algorithm envNoDir).executed :=
  ⟨(c10_theorem ("/data/transfer") (fun _ => false) envNoDir rfl rfl).1,
   (c10_theorem ("/data/transfer") (fun _ => false) envNoDir rfl rfl).2.1,
   (c10_theorem ("/data/transfer") (fun _ => false) envNoDir rfl rfl).2.2.2.1⟩
